import Mathlib

/-!
Verification of the ipsc2hbrp protocol bridge.

Shallow embedding of the Go sources:
* `internal/hbrp/proto` (packets.go): the DMRD codec (`Packet`, `Encode`, `Decode`).
* `internal/hbrp` (packets.go): the MMDVM client packet builders (`sendRPTK`, `sendRPTC`).
* `internal/config` (config.go): `Config.Validate`.
* `internal/ipsc`: the translator (source file absent; modelled from the spec).

Bytes are modelled as `Nat` values below 256; Go's `byte(x)` truncation is
`x % 256`, big-endian shifts/ors over disjoint byte lanes are written with
`/`, `%`, `*` and `+` (exact for byte-ranged operands).
-/

namespace Hbrp

/-- The DMRD frame record, from `internal/hbrp/proto.Packet` (packets.go).
`Signature` models the Go string as its byte list; `DMRData` models the
`[33]byte` array as a byte list (length 33 for any Go value). -/
structure Packet where
  Signature : List Nat
  Seq : Nat
  Src : Nat
  Dst : Nat
  Repeater : Nat
  Slot : Bool
  GroupCall : Bool
  FrameType : Nat
  DTypeOrVSeq : Nat
  StreamID : Nat
  DMRData : List Nat
  deriving DecidableEq, Repr

/-- Go `copy` into a fresh zeroed buffer of length `n`:
the first `min n src.length` bytes of `src`, zero-padded to length `n`. -/
def padTo (n : Nat) (src : List Nat) : List Nat :=
  src.take n ++ List.replicate (n - src.length) 0

/-- The flags byte built by `Packet.Encode` (packets.go lines 194-203):
`bits |= 0x1` for slot, `bits |= 0x2` for a non-group call,
`bits |= (frameType & 0x3) << 2`, `bits |= (dTypeOrVSeq & 0xF) << 4`.
The or-ed fields occupy disjoint bits, so the byte is their sum. -/
def flagsByte (p : Packet) : Nat :=
  (if p.Slot then 1 else 0) + (if p.GroupCall then 0 else 2) +
    p.FrameType % 4 * 4 + p.DTypeOrVSeq % 16 * 16

/-- `Packet.Encode` (packets.go lines 179-210): 53 bytes, big-endian fields.
`byte(x >> k)` is `x / 2^k % 256`. -/
def Packet.Encode (p : Packet) : List Nat :=
  padTo 4 p.Signature ++
  [p.Seq % 256,
   p.Src / 65536 % 256, p.Src / 256 % 256, p.Src % 256,
   p.Dst / 65536 % 256, p.Dst / 256 % 256, p.Dst % 256,
   p.Repeater / 16777216 % 256, p.Repeater / 65536 % 256,
   p.Repeater / 256 % 256, p.Repeater % 256,
   flagsByte p,
   p.StreamID / 16777216 % 256, p.StreamID / 65536 % 256,
   p.StreamID / 256 % 256, p.StreamID % 256] ++
  padTo 33 p.DMRData

/-- `Decode` (packets.go lines 143-170).  Accepts lengths 53..55 only.
`data[5]<<16 | data[6]<<8 | data[7]` over bytes is the shown sum;
for the flags byte, `bits & 0x1`, `bits & 0x2`, `(bits & 0xC) >> 2` and
`(bits & 0xF0) >> 4` are `bits % 2`, `bits / 2 % 2`, `bits / 4 % 4` and
`bits / 16 % 16` respectively. -/
def Decode (data : List Nat) : Option Packet :=
  if data.length < 53 then none
  else if data.length > 55 then none
  else
    let bits := data.getD 15 0
    some {
      Signature := data.take 4
      Seq := data.getD 4 0
      Src := data.getD 5 0 * 65536 + data.getD 6 0 * 256 + data.getD 7 0
      Dst := data.getD 8 0 * 65536 + data.getD 9 0 * 256 + data.getD 10 0
      Repeater := data.getD 11 0 * 16777216 + data.getD 12 0 * 65536 +
        data.getD 13 0 * 256 + data.getD 14 0
      Slot := bits % 2 != 0
      GroupCall := bits / 2 % 2 == 0
      FrameType := bits / 4 % 4
      DTypeOrVSeq := bits / 16 % 16
      StreamID := data.getD 16 0 * 16777216 + data.getD 17 0 * 65536 +
        data.getD 18 0 * 256 + data.getD 19 0
      DMRData := (data.drop 20).take 33
    }

/-- The sample frame from the repository's round-trip test (`samplePacket`
in the proto tests). -/
def samplePkt : Packet :=
  { Signature := [68, 77, 82, 68]  -- "DMRD"
    Seq := 42
    Src := 123456
    Dst := 654321
    Repeater := 3001
    Slot := true
    GroupCall := true
    FrameType := 1
    DTypeOrVSeq := 3
    StreamID := 0xDEADBEEF
    DMRData := List.range 33 }

end Hbrp

namespace SHA256

/-!
Modelled from the spec: SHA-256 as used by `sendRPTK` via Go's external
`crypto/sha256` library (not part of this repository); implemented per
FIPS 180-4 over byte lists, words as `Nat` mod 2^32.
-/

def M32 : Nat := 4294967296

def rotr (n x : Nat) : Nat := ((x >>> n) ||| (x <<< (32 - n))) % M32

def K : List Nat :=
  [1116352408, 1899447441, 3049323471, 3921009573, 961987163,
   1508970993, 2453635748, 2870763221, 3624381080, 310598401, 607225278,
   1426881987, 1925078388, 2162078206, 2614888103, 3248222580,
   3835390401, 4022224774, 264347078, 604807628, 770255983, 1249150122,
   1555081692, 1996064986, 2554220882, 2821834349, 2952996808,
   3210313671, 3336571891, 3584528711, 113926993, 338241895, 666307205,
   773529912, 1294757372, 1396182291, 1695183700, 1986661051,
   2177026350, 2456956037, 2730485921, 2820302411, 3259730800,
   3345764771, 3516065817, 3600352804, 4094571909, 275423344, 430227734,
   506948616, 659060556, 883997877, 958139571, 1322822218, 1537002063,
   1747873779, 1955562222, 2024104815, 2227730452, 2361852424,
   2428436474, 2756734187, 3204031479, 3329325298]

structure Hash where
  a : Nat
  b : Nat
  c : Nat
  d : Nat
  e : Nat
  f : Nat
  g : Nat
  hh : Nat
  deriving DecidableEq

def initHash : Hash :=
  ⟨1779033703, 3144134277, 1013904242, 2773480762,
   1359893119, 2600822924, 528734635, 1541459225⟩

def pad (msg : List Nat) : List Nat :=
  let r := (msg.length + 1) % 64
  let zeros := (64 + 56 - r) % 64
  let bitLen := msg.length * 8
  msg ++ [128] ++ List.replicate zeros 0 ++
    [bitLen / 2 ^ 56 % 256, bitLen / 2 ^ 48 % 256, bitLen / 2 ^ 40 % 256,
     bitLen / 2 ^ 32 % 256, bitLen / 2 ^ 24 % 256, bitLen / 2 ^ 16 % 256,
     bitLen / 2 ^ 8 % 256, bitLen % 256]

def toBlocks (l : List Nat) : List (List Nat) :=
  if hnil : l = [] then []
  else l.take 64 :: toBlocks (l.drop 64)
termination_by l.length
decreasing_by
  simp only [List.length_drop]
  have hl : 0 < l.length := List.length_pos.mpr hnil
  omega

def msgWords (block : List Nat) : Array Nat :=
  ((List.range 16).map (fun i =>
    block.getD (4 * i) 0 * 16777216 + block.getD (4 * i + 1) 0 * 65536 +
    block.getD (4 * i + 2) 0 * 256 + block.getD (4 * i + 3) 0)).toArray

def schedule (block : List Nat) : Array Nat :=
  (List.range 48).foldl (fun w i =>
    let j := i + 16
    let x := w.getD (j - 15) 0
    let y := w.getD (j - 2) 0
    let s0 := rotr 7 x ^^^ rotr 18 x ^^^ (x >>> 3)
    let s1 := rotr 17 y ^^^ rotr 19 y ^^^ (y >>> 10)
    w.push ((w.getD (j - 16) 0 + s0 + w.getD (j - 7) 0 + s1) % M32))
    (msgWords block)

def compressBlock (st : Hash) (block : List Nat) : Hash :=
  let w := schedule block
  let fin := (List.range 64).foldl (fun (s : Hash) i =>
    let s1 := rotr 6 s.e ^^^ rotr 11 s.e ^^^ rotr 25 s.e
    let ch := (s.e &&& s.f) ^^^ ((s.e ^^^ 4294967295) &&& s.g)
    let t1 := (s.hh + s1 + ch + K.getD i 0 + w.getD i 0) % M32
    let s0 := rotr 2 s.a ^^^ rotr 13 s.a ^^^ rotr 22 s.a
    let maj := (s.a &&& s.b) ^^^ (s.a &&& s.c) ^^^ (s.b &&& s.c)
    let t2 := (s0 + maj) % M32
    ⟨(t1 + t2) % M32, s.a, s.b, s.c, (s.d + t1) % M32, s.e, s.f, s.g⟩) st
  ⟨(st.a + fin.a) % M32, (st.b + fin.b) % M32, (st.c + fin.c) % M32,
   (st.d + fin.d) % M32, (st.e + fin.e) % M32, (st.f + fin.f) % M32,
   (st.g + fin.g) % M32, (st.hh + fin.hh) % M32⟩

/-- Big-endian bytes of a 32-bit word. -/
def wordBytes (w : Nat) : List Nat :=
  [w / 16777216 % 256, w / 65536 % 256, w / 256 % 256, w % 256]

/-- SHA-256 digest (32 bytes) of a byte-list message.  Checked against the
FIPS 180-4 test vectors for "", "abc" and 56 bytes of "a". -/
def sha256 (msg : List Nat) : List Nat :=
  let fin := (toBlocks (pad msg)).foldl compressBlock initHash
  wordBytes fin.a ++ wordBytes fin.b ++ wordBytes fin.c ++ wordBytes fin.d ++
    wordBytes fin.e ++ wordBytes fin.f ++ wordBytes fin.g ++ wordBytes fin.hh

end SHA256

namespace Hbrp

/-- ASCII code of a lowercase hex digit, as produced by Go's `%x`/`%08x`
formatting. -/
def hexDigit (n : Nat) : Nat := if n < 10 then 48 + n else 87 + n

/-- `fmt.Sprintf("%x", bs)` over a byte slice: two lowercase hex chars per
byte. -/
def hexOfBytes (bs : List Nat) : List Nat :=
  bs.flatMap (fun b => [hexDigit (b / 16), hexDigit (b % 16)])

/-- `fmt.Sprintf("%08x", id)` for a `uint32` id: 8 zero-padded lowercase hex
chars, big-endian nibbles. -/
def hex8 (id : Nat) : List Nat :=
  [hexDigit (id / 268435456 % 16), hexDigit (id / 16777216 % 16),
   hexDigit (id / 1048576 % 16), hexDigit (id / 65536 % 16),
   hexDigit (id / 4096 % 16), hexDigit (id / 256 % 16),
   hexDigit (id / 16 % 16), hexDigit (id % 16)]

/-- Go's `copy(dst[pos:], src)`: overwrite `min src.length (dst.length - pos)`
bytes of `dst` starting at `pos`. -/
def copyInto (dst src : List Nat) (pos : Nat) : List Nat :=
  let n := min src.length (dst.length - pos)
  dst.take pos ++ src.take n ++ dst.drop (pos + n)

/-- `HBRPClient.sendRPTK` (packets.go lines 52-68): a 76-byte buffer holding
"RPTK", the 8-hex-char repeater ID, and the 64 hex chars of
`sha256(nonce ++ password)`. -/
def sendRPTK (id : Nat) (nonce password : List Nat) : List Nat :=
  let token := hexOfBytes (SHA256.sha256 (nonce ++ password))
  let hexid := copyInto (List.replicate 8 0) (hex8 id) 0
  let data0 := List.replicate 76 0
  let data1 := copyInto data0 [82, 80, 84, 75] 0
  let data2 := copyInto data1 hexid 4
  copyInto data2 token 12

/-- Digit loop for `decDigits`; the fuel argument only bounds recursion
depth (any fuel above `n` gives the same value). -/
def decDigitsGo : Nat → Nat → List Nat
  | 0, _ => []
  | fuel + 1, n =>
    if n < 10 then [48 + n]
    else decDigitsGo fuel (n / 10) ++ [48 + n % 10]

/-- ASCII decimal digits of `n`, as Go's `%d` renders it. -/
def decDigits (n : Nat) : List Nat := decDigitsGo (n + 1) n

/-- Go's `%0Nd`: decimal, zero-padded on the left to width `w` (longer if
the number does not fit). -/
def zeroPad (w n : Nat) : List Nat :=
  List.replicate (w - (decDigits n).length) 48 ++ decDigits n

/-- Go's `%-Ns`: left-justified, space-padded on the right to width `w`
(longer if the string does not fit). -/
def leftJustify (w : Nat) (s : List Nat) : List Nat :=
  s ++ List.replicate (w - s.length) 32

/-- `HBRPClient.sendRPTC` (packets.go lines 32-50): the RPTC configuration
packet as the appends in the source.  `latStr`/`lonStr` stand for the
`%-08f`/`%-09f` renderings of the float64 latitude/longitude (floats are
kept abstract as their formatted byte strings, which are always at least
8 resp. 9 bytes long); the source truncates them with `[:8]`/`[:9]`. -/
def sendRPTC (callsign : List Nat) (id rxfreq txfreq txpower colorcode : Nat)
    (latStr lonStr : List Nat) (height : Nat)
    (location description url : List Nat) : List Nat :=
  [82, 80, 84, 67] ++
  leftJustify 8 callsign ++
  hex8 id ++
  zeroPad 9 rxfreq ++
  zeroPad 9 txfreq ++
  zeroPad 2 txpower ++
  zeroPad 2 colorcode ++
  latStr.take 8 ++
  lonStr.take 9 ++
  zeroPad 3 height ++
  leftJustify 20 location ++
  leftJustify 20 description ++
  leftJustify 124 url ++
  List.replicate 40 32 ++
  List.replicate 40 32

/-- The callsign field as the spec's words read ("8-char left-padded
callsign"): padding spaces added on the left.  Defined only to compare
against `sendRPTC`. -/
def sendRPTCLeftPadded
    (callsign : List Nat) (id rxfreq txfreq txpower colorcode : Nat)
    (latStr lonStr : List Nat) (height : Nat)
    (location description url : List Nat) : List Nat :=
  [82, 80, 84, 67] ++
  (List.replicate (8 - callsign.length) 32 ++ callsign) ++
  hex8 id ++
  zeroPad 9 rxfreq ++
  zeroPad 9 txfreq ++
  zeroPad 2 txpower ++
  zeroPad 2 colorcode ++
  latStr.take 8 ++
  lonStr.take 9 ++
  zeroPad 3 height ++
  leftJustify 20 location ++
  leftJustify 20 description ++
  leftJustify 124 url ++
  List.replicate 40 32 ++
  List.replicate 40 32

end Hbrp

namespace Cfg

/-!
`internal/config` (config.go): the configuration record and `Config.Validate`.
`linkOk` stands for the result of the external `netlink.LinkByName` lookup;
float64 latitude/longitude are modelled as rationals (the validation only
compares them against integer bounds).
-/

structure IPSCAuth where
  Enabled : Bool
  Key : String
  deriving DecidableEq

structure IPSC where
  Interface : String
  Port : Nat
  IP : String
  SubnetMask : Int
  Auth : IPSCAuth
  deriving DecidableEq

structure HBRP where
  Callsign : String
  ID : Nat
  RXFreq : Nat
  TXFreq : Nat
  TXPower : Nat
  ColorCode : Nat
  Latitude : ℚ
  Longitude : ℚ
  Height : Nat
  Location : String
  Description : String
  URL : String
  MasterServer : String
  Password : String
  deriving DecidableEq

structure Config where
  LogLevel : String
  HBRP : HBRP
  IPSC : IPSC
  deriving DecidableEq

inductive ConfigError where
  | ErrInvalidLogLevel
  | ErrInvalidHBRPCallsign
  | ErrInvalidHBRPColorCode
  | ErrInvalidHBRPLongitude
  | ErrInvalidHBRPLatitude
  | ErrInvalidHBRPMasterServer
  | ErrInvalidHBRPPassword
  | ErrInvalidIPSCInterface
  | ErrInvalidIPSCIP
  | ErrInvalidIPSCSubnetMask
  | ErrInvalidIPSCAuthKey
  deriving DecidableEq

/-- One character of the class `[0-9a-fA-F]`. -/
def isHexChar (c : Char) : Bool :=
  (48 ≤ c.toNat && c.toNat ≤ 57) || (97 ≤ c.toNat && c.toNat ≤ 102) ||
    (65 ≤ c.toNat && c.toNat ≤ 70)

/-- The anchored regex `[0-9a-fA-F]{0,40}` of config.go: at most 40 chars,
all hex. -/
def matchesAuthKeyPattern (s : String) : Bool :=
  s.length ≤ 40 && s.toList.all isHexChar

/-- `Config.Validate` (config.go lines 77-136), checks in source order. -/
def Config.Validate (c : Config) (linkOk : Bool) : Option ConfigError :=
  if ¬(c.LogLevel = "debug" ∨ c.LogLevel = "info" ∨ c.LogLevel = "warn" ∨
      c.LogLevel = "error") then
    some ConfigError.ErrInvalidLogLevel
  else if c.HBRP.Callsign = "" then some ConfigError.ErrInvalidHBRPCallsign
  else if c.HBRP.ColorCode > 15 then some ConfigError.ErrInvalidHBRPColorCode
  else if c.HBRP.Longitude < -180 ∨ c.HBRP.Longitude > 180 then
    some ConfigError.ErrInvalidHBRPLongitude
  else if c.HBRP.Latitude < -90 ∨ c.HBRP.Latitude > 90 then
    some ConfigError.ErrInvalidHBRPLatitude
  else if c.HBRP.MasterServer = "" then
    some ConfigError.ErrInvalidHBRPMasterServer
  else if c.HBRP.Password = "" then some ConfigError.ErrInvalidHBRPPassword
  else if c.IPSC.Interface = "" then some ConfigError.ErrInvalidIPSCInterface
  else if linkOk = false then some ConfigError.ErrInvalidIPSCInterface
  else if c.IPSC.IP = "" then some ConfigError.ErrInvalidIPSCIP
  else if c.IPSC.SubnetMask < 1 ∨ c.IPSC.SubnetMask > 32 then
    some ConfigError.ErrInvalidIPSCSubnetMask
  else if c.IPSC.Auth.Enabled = true ∧ c.IPSC.Auth.Key = "" then
    some ConfigError.ErrInvalidIPSCAuthKey
  else if matchesAuthKeyPattern c.IPSC.Auth.Key = false then
    some ConfigError.ErrInvalidIPSCAuthKey
  else none

/-- A configuration passing every check before the auth-key checks
("lo" exists, so `linkOk = true`); auth settings are the parameters. -/
def baseCfg (enabled : Bool) (key : String) : Config :=
  { LogLevel := "info"
    HBRP :=
      { Callsign := "N0CALL"
        ID := 12345
        RXFreq := 449000000
        TXFreq := 444000000
        TXPower := 50
        ColorCode := 7
        Latitude := 30
        Longitude := -97
        Height := 30
        Location := "Oklahoma"
        Description := "Test"
        URL := "https://example.com"
        MasterServer := "master.example.com:62030"
        Password := "password" }
    IPSC :=
      { Interface := "lo"
        Port := 50000
        IP := "10.10.250.1"
        SubnetMask := 24
        Auth := { Enabled := enabled, Key := key } } }

end Cfg

namespace Ipsc

/-!
The `internal/ipsc` translator.  Its source file is not under src/ (only
`translator_test.go` is), so the definitions below are modelled from the
spec, §4.C: the forward map keyed by DMRD stream ID, the reverse map keyed
by IPSC call-control, the triple voice-header emission, and the reverse
header de-duplication.  The random 32-bit allocator is modelled by the
`nextRand` counter (the allocated values' randomness is irrelevant to the
claims below).
-/

/-- Modelled from the spec: forward stream state (§3), held per DMRD
stream ID by the missing translator source. -/
structure StreamState where
  callControl : Nat
  slot : Bool
  groupCall : Bool
  src : Nat
  dst : Nat
  lastVSeq : Nat
  deriving DecidableEq

/-- Modelled from the spec: reverse stream state (§3), held per IPSC
call-control by the missing translator source. -/
structure ReverseStreamState where
  streamID : Nat
  slot : Bool
  groupCall : Bool
  src : Nat
  dst : Nat
  seq : Nat
  deriving DecidableEq

/-- Modelled from the spec: the `IPSCTranslator` state of the missing
translator source — local peer ID, the two stream maps and the allocator. -/
structure IPSCTranslator where
  peerID : Nat
  streams : List (Nat × StreamState)
  reverseStreams : List (Nat × ReverseStreamState)
  nextRand : Nat
  deriving DecidableEq

/-- Modelled from the spec: `extractFullLC` (§4.C.1) — FLCO byte (0 group,
3 unit-to-unit), two reserved zeros, 24-bit dst, 24-bit src. -/
def extractFullLCBytes (p : Hbrp.Packet) : List Nat :=
  [if p.GroupCall then 0 else 3, 0, 0,
   p.Dst / 65536 % 256, p.Dst / 256 % 256, p.Dst % 256,
   p.Src / 65536 % 256, p.Src / 256 % 256, p.Src % 256]

/-- Modelled from the spec: the outbound IPSC datagram layout (§3/§4.C.1):
type, peer ID, src, dst, call-type byte, call-control, call-info byte
(0x20 slot, 0x40 end), RTP byte 18 = 0x80, marker bit in byte 19, burst
type at byte 30, payload from byte 31 (zero-padded to at least 54 bytes). -/
def buildIPSCPacket (ptype peerID src dst : Nat) (groupCall : Bool)
    (cc : Nat) (slot endFlag marker : Bool) (burst : Nat)
    (payload : List Nat) : List Nat :=
  [ptype,
   peerID / 16777216 % 256, peerID / 65536 % 256, peerID / 256 % 256,
   peerID % 256,
   0,
   src / 65536 % 256, src / 256 % 256, src % 256,
   dst / 65536 % 256, dst / 256 % 256, dst % 256,
   if groupCall then 2 else 1,
   cc / 16777216 % 256, cc / 65536 % 256, cc / 256 % 256, cc % 256,
   (if slot then 32 else 0) + (if endFlag then 64 else 0),
   128,
   if marker then 128 else 0,
   0, 0, 0, 0, 0, 0, 0, 0, 0, 0,
   burst] ++ payload ++ List.replicate (23 - payload.length) 0

/-- Modelled from the spec: forward map lookup of the missing translator
source. -/
def lookupStream (tr : IPSCTranslator) (sid : Nat) : Option StreamState :=
  tr.streams.lookup sid

/-- Modelled from the spec: reverse map lookup of the missing translator
source. -/
def lookupReverse (tr : IPSCTranslator) (cc : Nat) :
    Option ReverseStreamState :=
  tr.reverseStreams.lookup cc

/-- Modelled from the spec: reverse stream destruction of the missing
translator source. -/
def removeReverse (tr : IPSCTranslator) (cc : Nat) : IPSCTranslator :=
  { tr with reverseStreams := tr.reverseStreams.filter (fun e => e.1 != cc) }

/-- Modelled from the spec: forward stream destruction of the missing
translator source. -/
def removeStream (tr : IPSCTranslator) (sid : Nat) : IPSCTranslator :=
  { tr with streams := tr.streams.filter (fun e => e.1 != sid) }

/-- Modelled from the spec: forward stream creation (§3, "created on first
DMRD frame of a call") with a fresh call-control from the allocator. -/
def getOrAllocStream (tr : IPSCTranslator) (p : Hbrp.Packet) :
    IPSCTranslator × StreamState :=
  match lookupStream tr p.StreamID with
  | some st => (tr, st)
  | none =>
    let st : StreamState :=
      { callControl := tr.nextRand % 4294967296
        slot := p.Slot
        groupCall := p.GroupCall
        src := p.Src
        dst := p.Dst
        lastVSeq := 0 }
    ({ tr with
        streams := (p.StreamID, st) :: tr.streams
        nextRand := tr.nextRand + 1 }, st)

/-- Modelled from the spec: IPSC packet type for voice (0x80 group / 0x81
private). -/
def voiceType (groupCall : Bool) : Nat := if groupCall then 128 else 129

/-- Modelled from the spec: IPSC packet type for data (0x83 group / 0x84
private). -/
def dataType (groupCall : Bool) : Nat := if groupCall then 131 else 132

/-- Modelled from the spec: `TranslateToIPSC` of the missing translator
source (§4.C.1) — voice bursts map to one packet, a voice LC header
(frameType 1, dTypeOrVSeq 1) to three voice-head packets (burst 0x01,
marker on the first), a terminator to one end-flagged packet with state
destruction, a CSBK to one data packet; anything else produces nothing. -/
def TranslateToIPSC (tr : IPSCTranslator) (p : Hbrp.Packet) :
    IPSCTranslator × List (List Nat) :=
  if p.FrameType = 2 then
    let (tr1, st) := getOrAllocStream tr p
    let pkt := buildIPSCPacket (voiceType p.GroupCall) tr1.peerID p.Src p.Dst
      p.GroupCall st.callControl p.Slot false false
      (8 + p.DTypeOrVSeq % 6) p.DMRData
    let tr2 := { tr1 with
      streams := (p.StreamID, { st with lastVSeq := p.DTypeOrVSeq }) ::
        tr1.streams.filter (fun e => e.1 != p.StreamID) }
    (tr2, [pkt])
  else if p.FrameType = 1 then
    if p.DTypeOrVSeq = 1 then
      let (tr1, st) := getOrAllocStream tr p
      let payload := extractFullLCBytes p ++ List.replicate 12 0
      let head := fun marker => buildIPSCPacket (voiceType p.GroupCall)
        tr1.peerID p.Src p.Dst p.GroupCall st.callControl p.Slot false marker
        1 payload
      (tr1, [head true, head false, head false])
    else if p.DTypeOrVSeq = 2 then
      let (tr1, st) := getOrAllocStream tr p
      let pkt := buildIPSCPacket (voiceType p.GroupCall) tr1.peerID p.Src
        p.Dst p.GroupCall st.callControl p.Slot true false 2 p.DMRData
      (removeStream tr1 p.StreamID, [pkt])
    else if p.DTypeOrVSeq = 3 then
      let (tr1, st) := getOrAllocStream tr p
      let pkt := buildIPSCPacket (dataType p.GroupCall) tr1.peerID p.Src
        p.Dst p.GroupCall st.callControl p.Slot false false 7 p.DMRData
      (tr1, [pkt])
    else (tr, [])
  else (tr, [])

/-- Modelled from the spec: the 32-bit big-endian call-control in bytes
13..16 of an IPSC traffic packet. -/
def ccOf (data : List Nat) : Nat :=
  data.getD 13 0 * 16777216 + data.getD 14 0 * 65536 +
    data.getD 15 0 * 256 + data.getD 16 0

/-- Modelled from the spec: the DMRD frame emitted by the reverse
translation, built from the recorded reverse stream state. -/
def mkDMRD (st : ReverseStreamState) (repeater frameType dtype : Nat)
    (payload : List Nat) : Hbrp.Packet :=
  { Signature := [68, 77, 82, 68]
    Seq := st.seq % 256
    Src := st.src
    Dst := st.dst
    Repeater := repeater
    Slot := st.slot
    GroupCall := st.groupCall
    FrameType := frameType
    DTypeOrVSeq := dtype
    StreamID := st.streamID
    DMRData := payload.take 33 ++ List.replicate (33 - payload.length) 0 }

/-- Modelled from the spec: `TranslateToHBRP` of the missing translator
source (§4.C.2) — accept types 0x80/0x81/0x83/0x84 and length ≥ 54;
dispatch on burst byte 30: voice-head 0x01 (allocate + emit once, duplicates
emit nothing), voice-term 0x02, CSBK 0x07, voice bursts 0x08..0x0D; destroy
the reverse state afterwards when byte 17 bit 6 is set. -/
def TranslateToHBRP (tr : IPSCTranslator) (packetType : Nat)
    (data : List Nat) : IPSCTranslator × List Hbrp.Packet :=
  if ¬(packetType = 128 ∨ packetType = 129 ∨ packetType = 131 ∨
      packetType = 132) then (tr, [])
  else if data.length < 54 then (tr, [])
  else
    let cc := ccOf data
    let src := data.getD 6 0 * 65536 + data.getD 7 0 * 256 + data.getD 8 0
    let dst := data.getD 9 0 * 65536 + data.getD 10 0 * 256 + data.getD 11 0
    let slot := data.getD 17 0 / 32 % 2 = 1
    let groupCall := data.getD 12 0 = 2
    let endFlag := data.getD 17 0 / 64 % 2 = 1
    let burst := data.getD 30 0
    let payload := data.drop 31
    let step : IPSCTranslator × List Hbrp.Packet :=
      if burst = 1 then
        match lookupReverse tr cc with
        | some _ => (tr, [])
        | none =>
          let st : ReverseStreamState :=
            { streamID := tr.nextRand % 4294967296
              slot := slot
              groupCall := groupCall
              src := src
              dst := dst
              seq := 0 }
          ({ tr with
              reverseStreams := (cc, st) :: tr.reverseStreams
              nextRand := tr.nextRand + 1 },
            [mkDMRD st tr.peerID 1 1 payload])
      else if burst = 2 then
        match lookupReverse tr cc with
        | some st =>
          (removeReverse tr cc, [mkDMRD st tr.peerID 1 2 payload])
        | none => (tr, [])
      else if burst = 7 then
        match lookupReverse tr cc with
        | some st =>
          ({ tr with
              reverseStreams := (cc, { st with seq := st.seq + 1 }) ::
                tr.reverseStreams.filter (fun e => e.1 != cc) },
            [mkDMRD st tr.peerID 1 3 payload])
        | none =>
          let st : ReverseStreamState :=
            { streamID := tr.nextRand % 4294967296
              slot := slot
              groupCall := groupCall
              src := src
              dst := dst
              seq := 0 }
          ({ tr with
              reverseStreams := (cc, st) :: tr.reverseStreams
              nextRand := tr.nextRand + 1 },
            [mkDMRD st tr.peerID 1 3 payload])
      else if 8 ≤ burst ∧ burst ≤ 13 then
        match lookupReverse tr cc with
        | some st =>
          ({ tr with
              reverseStreams := (cc, { st with seq := st.seq + 1 }) ::
                tr.reverseStreams.filter (fun e => e.1 != cc) },
            [mkDMRD st tr.peerID 2 (burst - 8) payload])
        | none => (tr, [])
      else (tr, [])
    if endFlag then (removeReverse step.1 cc, step.2) else step

/-- A fresh translator with the test peer ID and empty stream maps. -/
def testTranslator : IPSCTranslator :=
  { peerID := 12345, streams := [], reverseStreams := [], nextRand := 7 }

/-- A 54-byte IPSC voice-head datagram (burst byte 30 = 1, call-control 0,
no end flag). -/
def testVoiceHead : List Nat :=
  128 :: List.replicate 29 0 ++ [1] ++ List.replicate 23 0

end Ipsc

namespace Claims

open Hbrp

/-- A frame with every numeric field out of its wire range. -/
def overflowPkt : Packet :=
  { Signature := [1, 2, 3]
    Seq := 300
    Src := 16777221
    Dst := 33554439
    Repeater := 4294967305
    Slot := true
    GroupCall := false
    FrameType := 6
    DTypeOrVSeq := 21
    StreamID := 8589934595
    DMRData := List.replicate 33 1 }

/-- The frame decoded from 53 bytes of value 9. -/
def nines : Packet :=
  { Signature := [9, 9, 9, 9]
    Seq := 9
    Src := 592137
    Dst := 592137
    Repeater := 151587081
    Slot := true
    GroupCall := true
    FrameType := 2
    DTypeOrVSeq := 0
    StreamID := 151587081
    DMRData := List.replicate 33 9 }

end Claims


namespace Hbrp

theorem padTo_length (n : Nat) (src : List Nat) : (padTo n src).length = n := by
  simp [padTo]
  omega

theorem padTo_of_length_eq {n : Nat} {src : List Nat} (h : src.length = n) :
    padTo n src = src := by
  simp [padTo, h, List.take_of_length_le (Nat.le_of_eq h)]

theorem encode_length (p : Packet) : p.Encode.length = 53 := by
  simp [Packet.Encode, padTo_length]

/-- Core round-trip fact: decoding an encoded packet succeeds and recovers
each field reduced to its wire width (`DMRData` is a Go `[33]byte`, hence
the length hypothesis). -/
theorem decode_encode_general (p : Packet) (hdmr : p.DMRData.length = 33) :
    Decode p.Encode = some
      { Signature := padTo 4 p.Signature
        Seq := p.Seq % 256
        Src := p.Src % 16777216
        Dst := p.Dst % 16777216
        Repeater := p.Repeater % 4294967296
        Slot := p.Slot
        GroupCall := p.GroupCall
        FrameType := p.FrameType % 4
        DTypeOrVSeq := p.DTypeOrVSeq % 16
        StreamID := p.StreamID % 4294967296
        DMRData := p.DMRData } := by
  have hd : padTo 33 p.DMRData = p.DMRData := padTo_of_length_eq hdmr
  obtain ⟨s, hs, h4⟩ : ∃ s, padTo 4 p.Signature = s ∧ s.length = 4 :=
    ⟨_, rfl, padTo_length _ _⟩
  rw [Packet.Encode, hs, hd]
  rcases s with _ | ⟨a, s⟩; · simp at h4
  rcases s with _ | ⟨b, s⟩; · simp at h4
  rcases s with _ | ⟨c, s⟩; · simp at h4
  rcases s with _ | ⟨e, s⟩; · simp at h4
  rcases s with _ | ⟨f, s⟩
  case cons.cons.cons.cons.cons => simp at h4
  simp only [List.cons_append, List.nil_append]
  simp only [Decode, List.length_cons, hdmr]
  norm_num
  refine ⟨?_, ?_, ?_, ?_, ?_, ?_, ?_, ?_, ?_⟩
  · omega
  · omega
  · omega
  · rcases hSlot : p.Slot <;> rcases hGc : p.GroupCall <;>
      simp [flagsByte, hSlot, hGc] <;> omega
  · rcases hSlot : p.Slot <;> rcases hGc : p.GroupCall <;>
      simp [flagsByte, hSlot, hGc] <;> omega
  · rcases hSlot : p.Slot <;> rcases hGc : p.GroupCall <;>
      simp [flagsByte, hSlot, hGc] <;> omega
  · rcases hSlot : p.Slot <;> rcases hGc : p.GroupCall <;>
      simp [flagsByte, hSlot, hGc] <;> omega
  · omega
  · exact Nat.le_of_eq hdmr

/-- Byte 15 of an encoded packet is the flags byte. -/
theorem encode_getD_15 (p : Packet) : p.Encode.getD 15 0 = flagsByte p := by
  obtain ⟨s, hs, h4⟩ : ∃ s, padTo 4 p.Signature = s ∧ s.length = 4 :=
    ⟨_, rfl, padTo_length _ _⟩
  rw [Packet.Encode, hs]
  rcases s with _ | ⟨a, s⟩; · simp at h4
  rcases s with _ | ⟨b, s⟩; · simp at h4
  rcases s with _ | ⟨c, s⟩; · simp at h4
  rcases s with _ | ⟨e, s⟩; · simp at h4
  rcases s with _ | ⟨f, s⟩
  case cons.cons.cons.cons.cons => simp at h4
  simp

end Hbrp

namespace SHA256

theorem sha256_length (msg : List Nat) : (sha256 msg).length = 32 := by
  simp [sha256, wordBytes]

theorem wordBytes_lt (w : Nat) : ∀ b ∈ wordBytes w, b < 256 := by
  intro b hb
  simp only [wordBytes, List.mem_cons, List.not_mem_nil, or_false] at hb
  rcases hb with h | h | h | h <;> omega

theorem sha256_mem_lt (msg : List Nat) : ∀ b ∈ sha256 msg, b < 256 := by
  intro b hb
  simp only [sha256, List.mem_append] at hb
  rcases hb with (((((((h | h) | h) | h) | h) | h) | h) | h) <;>
    exact wordBytes_lt _ b h

end SHA256

namespace Hbrp

theorem copyInto_append (pre suf src : List Nat) (h : src.length ≤ suf.length) :
    copyInto (pre ++ suf) src pre.length = pre ++ src ++ suf.drop src.length := by
  have hn : min src.length ((pre ++ suf).length - pre.length) = src.length := by
    simp; omega
  simp only [copyInto, hn, List.take_left, List.take_length, List.drop_append]

theorem hex8_length (id : Nat) : (hex8 id).length = 8 := by simp [hex8]

theorem hexOfBytes_length (bs : List Nat) :
    (hexOfBytes bs).length = 2 * bs.length := by
  induction bs with
  | nil => simp [hexOfBytes]
  | cons b t ih => simp [hexOfBytes] at ih ⊢; omega

theorem hexOfBytes_mem (bs : List Nat) (hbs : ∀ b ∈ bs, b < 256) :
    ∀ c ∈ hexOfBytes bs, (48 ≤ c ∧ c ≤ 57) ∨ (97 ≤ c ∧ c ≤ 102) := by
  intro c hc
  simp only [hexOfBytes, List.mem_flatMap] at hc
  obtain ⟨b, hb, hcin⟩ := hc
  have hblt := hbs b hb
  simp only [List.mem_cons, List.not_mem_nil, or_false] at hcin
  rcases hcin with rfl | rfl <;> · unfold hexDigit; split <;> omega

theorem sendRPTK_eq (id : Nat) (nonce password : List Nat) :
    sendRPTK id nonce password =
      [82, 80, 84, 75] ++ hex8 id ++
        hexOfBytes (SHA256.sha256 (nonce ++ password)) := by
  have htok : (hexOfBytes (SHA256.sha256 (nonce ++ password))).length = 64 := by
    rw [hexOfBytes_length, SHA256.sha256_length]
  have hhexid : copyInto (List.replicate 8 0) (hex8 id) 0 = hex8 id := by
    have := copyInto_append [] (List.replicate 8 0) (hex8 id)
      (by rw [hex8_length]; simp)
    simpa [hex8_length] using this
  simp only [sendRPTK]
  rw [hhexid]
  have h1 : copyInto (List.replicate 76 0) [82, 80, 84, 75] 0 =
      [82, 80, 84, 75] ++ List.replicate 72 0 := by
    have := copyInto_append [] (List.replicate 76 0) [82, 80, 84, 75] (by simp)
    simpa using this
  rw [h1]
  have h2 : copyInto ([82, 80, 84, 75] ++ List.replicate 72 0) (hex8 id) 4 =
      ([82, 80, 84, 75] ++ hex8 id) ++ List.replicate 64 0 := by
    have := copyInto_append [82, 80, 84, 75] (List.replicate 72 0) (hex8 id)
      (by rw [hex8_length]; simp)
    simp only [List.length_cons, List.length_nil] at this
    rw [this, hex8_length]
    simp [List.append_assoc]
  rw [h2]
  have h3 : copyInto (([82, 80, 84, 75] ++ hex8 id) ++ List.replicate 64 0)
      (hexOfBytes (SHA256.sha256 (nonce ++ password))) 12 =
      ([82, 80, 84, 75] ++ hex8 id) ++
        hexOfBytes (SHA256.sha256 (nonce ++ password)) := by
    have hpre : ([82, 80, 84, 75] ++ hex8 id).length = 12 := by
      simp [hex8_length]
    have := copyInto_append ([82, 80, 84, 75] ++ hex8 id)
      (List.replicate 64 0) (hexOfBytes (SHA256.sha256 (nonce ++ password)))
      (by rw [htok]; simp)
    rw [hpre] at this
    rw [this, htok]
    simp
  rw [h3, List.append_assoc]

theorem decDigitsGo_length_le :
    ∀ (w fuel n : Nat), n < fuel → 1 ≤ w → n < 10 ^ w →
      (decDigitsGo fuel n).length ≤ w := by
  intro w
  induction w with
  | zero => omega
  | succ k ih =>
    intro fuel n hfuel _ hn
    rcases fuel with _ | fuel
    · omega
    by_cases h10 : n < 10
    · rw [decDigitsGo, if_pos h10]; simp
    · rw [decDigitsGo, if_neg h10]
      rcases Nat.eq_zero_or_pos k with rfl | hk
      · norm_num at hn; omega
      · have hdiv : n / 10 < 10 ^ k := by
          rw [Nat.div_lt_iff_lt_mul (by norm_num)]
          calc n < 10 ^ (k + 1) := hn
            _ = 10 ^ k * 10 := by ring
        have := ih fuel (n / 10) (by omega) hk hdiv
        simp only [List.length_append, List.length_cons, List.length_nil]
        omega

theorem decDigits_length_le (w n : Nat) (h1 : 1 ≤ w) (hn : n < 10 ^ w) :
    (decDigits n).length ≤ w :=
  decDigitsGo_length_le w (n + 1) n (Nat.lt_succ_self n) h1 hn

theorem zeroPad_length {w n : Nat} (h1 : 1 ≤ w) (h : n < 10 ^ w) :
    (zeroPad w n).length = w := by
  have := decDigits_length_le w n h1 h
  simp [zeroPad]; omega

theorem leftJustify_length {w : Nat} {s : List Nat} (h : s.length ≤ w) :
    (leftJustify w s).length = w := by
  simp [leftJustify]; omega

end Hbrp

namespace Ipsc

theorem buildIPSCPacket_getD_30 (ptype peerID src dst : Nat) (g : Bool)
    (cc : Nat) (sl e m : Bool) (burst : Nat) (payload : List Nat) :
    (buildIPSCPacket ptype peerID src dst g cc sl e m burst
      payload).getD 30 0 = burst := by
  simp [buildIPSCPacket]

theorem triple_header (tr : IPSCTranslator) (p : Hbrp.Packet)
    (hft : p.FrameType = 1) (hdt : p.DTypeOrVSeq = 1) :
    (TranslateToIPSC tr p).2.length = 3 ∧
    ∀ pkt ∈ (TranslateToIPSC tr p).2, pkt.getD 30 0 = 1 := by
  rcases halloc : getOrAllocStream tr p with ⟨tr1, st⟩
  simp only [TranslateToIPSC, hft, hdt]
  norm_num
  rw [halloc]
  constructor <;> simp [buildIPSCPacket]

theorem translate_voicehead_new (tr : IPSCTranslator) (ty : Nat)
    (data : List Nat)
    (hty : ty = 128 ∨ ty = 129 ∨ ty = 131 ∨ ty = 132)
    (hlen : 54 ≤ data.length)
    (hburst : data.getD 30 0 = 1)
    (hend : data.getD 17 0 / 64 % 2 = 0)
    (hnone : lookupReverse tr (ccOf data) = none) :
    (TranslateToHBRP tr ty data).2.length = 1 ∧
    (lookupReverse (TranslateToHBRP tr ty data).1 (ccOf data)).isSome := by
  have hty2 := not_not_intro hty
  have hlen2 : ¬(data.length < 54) := by omega
  simp only [TranslateToHBRP, hty2, hburst, hend, hnone, hlen2]
  norm_num
  simp [lookupReverse, List.lookup]

theorem translate_voicehead_dup (tr : IPSCTranslator) (ty : Nat)
    (data : List Nat)
    (hty : ty = 128 ∨ ty = 129 ∨ ty = 131 ∨ ty = 132)
    (hlen : 54 ≤ data.length)
    (hburst : data.getD 30 0 = 1)
    (hsome : (lookupReverse tr (ccOf data)).isSome) :
    (TranslateToHBRP tr ty data).2.length = 0 := by
  obtain ⟨st, hst⟩ := Option.isSome_iff_exists.mp hsome
  have hty2 := not_not_intro hty
  have hlen2 : ¬(data.length < 54) := by omega
  simp only [TranslateToHBRP, hty2, hburst, hst, hlen2]
  norm_num
  split <;> simp

end Ipsc

namespace Claims

open Hbrp

/-- C1: for every DMRD frame whose fields are in their valid ranges
(4-byte signature, seq < 2^8, src/dst < 2^24, repeater < 2^32,
frameType ≤ 3, dTypeOrVSeq ≤ 15, streamID < 2^32 and the 33-byte payload),
`Encode` yields exactly 53 bytes and `Decode` of it returns the frame. -/
theorem encode_decode_roundtrip (p : Packet)
    (hsig : p.Signature.length = 4) (hseq : p.Seq < 256)
    (hsrc : p.Src < 16777216) (hdst : p.Dst < 16777216)
    (hrep : p.Repeater < 4294967296)
    (hft : p.FrameType ≤ 3) (hdt : p.DTypeOrVSeq ≤ 15)
    (hsid : p.StreamID < 4294967296) (hdmr : p.DMRData.length = 33) :
    p.Encode.length = 53 ∧ Decode p.Encode = some p := by
  refine ⟨encode_length p, ?_⟩
  rw [decode_encode_general p hdmr, padTo_of_length_eq hsig,
    Nat.mod_eq_of_lt hseq, Nat.mod_eq_of_lt hsrc, Nat.mod_eq_of_lt hdst,
    Nat.mod_eq_of_lt hrep,
    Nat.mod_eq_of_lt (show p.FrameType < 4 by omega),
    Nat.mod_eq_of_lt (show p.DTypeOrVSeq < 16 by omega),
    Nat.mod_eq_of_lt hsid]

/-- Witness for C1 at the repository's own sample frame. -/
theorem encode_decode_roundtrip_witness :
    samplePkt.Encode.length = 53 ∧ Decode samplePkt.Encode = some samplePkt :=
  encode_decode_roundtrip samplePkt (by decide) (by decide) (by decide)
    (by decide) (by decide) (by decide) (by decide) (by decide) (by decide)

/-- C8: `Encode` silently truncates out-of-range fields — decoding an encoded
packet always succeeds and returns each numeric field reduced modulo its wire
width, with `Slot`, `GroupCall` and `DMRData` preserved exactly.  (`DMRData`
is a Go `[33]byte`, hence the typing hypothesis on its length.) -/
theorem encode_truncates_fields (p : Packet) (hdmr : p.DMRData.length = 33) :
    ∃ q, Decode p.Encode = some q ∧
      q.Seq = p.Seq % 256 ∧
      q.Src = p.Src % 16777216 ∧
      q.Dst = p.Dst % 16777216 ∧
      q.Repeater = p.Repeater % 4294967296 ∧
      q.FrameType = p.FrameType % 4 ∧
      q.DTypeOrVSeq = p.DTypeOrVSeq % 16 ∧
      q.StreamID = p.StreamID % 4294967296 ∧
      q.Slot = p.Slot ∧
      q.GroupCall = p.GroupCall ∧
      q.DMRData = p.DMRData :=
  ⟨_, decode_encode_general p hdmr, rfl, rfl, rfl, rfl, rfl, rfl, rfl,
    rfl, rfl, rfl⟩

/-- Witness for C8 at a frame whose fields all overflow. -/
theorem encode_truncates_fields_witness :
    ∃ q, Decode overflowPkt.Encode = some q ∧
      q.Seq = overflowPkt.Seq % 256 ∧
      q.Src = overflowPkt.Src % 16777216 ∧
      q.Dst = overflowPkt.Dst % 16777216 ∧
      q.Repeater = overflowPkt.Repeater % 4294967296 ∧
      q.FrameType = overflowPkt.FrameType % 4 ∧
      q.DTypeOrVSeq = overflowPkt.DTypeOrVSeq % 16 ∧
      q.StreamID = overflowPkt.StreamID % 4294967296 ∧
      q.Slot = overflowPkt.Slot ∧
      q.GroupCall = overflowPkt.GroupCall ∧
      q.DMRData = overflowPkt.DMRData :=
  encode_truncates_fields overflowPkt (by decide)

/-- C4: `Decode` succeeds exactly on inputs of length 53, 54 or 55, and on a
54- or 55-byte input it returns the same frame as on the input's first 53
bytes. -/
theorem decode_accept_window (data : List Nat) :
    ((Decode data).isSome ↔
      data.length = 53 ∨ data.length = 54 ∨ data.length = 55) ∧
    (53 ≤ data.length → data.length ≤ 55 →
      Decode data = Decode (data.take 53)) := by
  constructor
  · unfold Decode
    split
    · next h => simp; omega
    · split
      · next h => simp; omega
      · next h => simp; omega
  · intro h1 h2
    have htake : (data.take 53).length = 53 := by simp; omega
    unfold Decode
    simp only [htake]
    rw [if_neg (by omega), if_neg (by omega), if_neg (by norm_num),
      if_neg (by norm_num)]
    simp [List.take_take, List.getD_eq_getElem?_getD, List.getElem?_take,
      List.drop_take]

/-- Witness for C4's truncation clause at a concrete 54-byte input. -/
theorem decode_accept_window_witness :
    Decode (List.replicate 54 5) = Decode ((List.replicate 54 5).take 53) :=
  (decode_accept_window (List.replicate 54 5)).2 (by decide) (by decide)

/-- C9: `Decode` performs no signature validation — any 53..55-byte input
decodes successfully and the `Signature` field is the first four input bytes
verbatim. -/
theorem decode_no_signature_check (data : List Nat)
    (h1 : 53 ≤ data.length) (h2 : data.length ≤ 55) :
    ∃ q, Decode data = some q ∧ q.Signature = data.take 4 := by
  unfold Decode
  rw [if_neg (by omega), if_neg (by omega)]
  exact ⟨_, rfl, rfl⟩

/-- Witness for C9 at an input whose first four bytes are not "DMRD". -/
theorem decode_no_signature_check_witness :
    ∃ q, Decode (List.replicate 53 7) = some q ∧
      q.Signature = (List.replicate 53 7).take 4 :=
  decode_no_signature_check (List.replicate 53 7) (by decide) (by decide)

/-- C3: `Encode` packs byte 15 as bit 0 = slot, bit 1 set iff not a group
call, bits 2-3 = frameType & 0x3, bits 4-7 = dTypeOrVSeq & 0xF; and
`Decode` reverses this exactly, in particular `GroupCall` is true iff bit 1
of byte 15 is clear. -/
theorem flags_bit_layout :
    (∀ p : Packet,
      (p.Encode.getD 15 0).testBit 0 = p.Slot ∧
      (p.Encode.getD 15 0).testBit 1 = !p.GroupCall ∧
      p.Encode.getD 15 0 / 4 % 4 = p.FrameType &&& 3 ∧
      p.Encode.getD 15 0 / 16 % 16 = p.DTypeOrVSeq &&& 15) ∧
    (∀ (data : List Nat) (q : Packet), Decode data = some q →
      q.Slot = (data.getD 15 0).testBit 0 ∧
      q.GroupCall = !(data.getD 15 0).testBit 1 ∧
      q.FrameType = data.getD 15 0 / 4 % 4 ∧
      q.DTypeOrVSeq = data.getD 15 0 / 16 % 16) := by
  constructor
  · intro p
    rw [encode_getD_15]
    have h3 : p.FrameType &&& 3 = p.FrameType % 4 := by
      have := Nat.and_pow_two_sub_one_eq_mod p.FrameType 2
      norm_num at this; exact this
    have h15 : p.DTypeOrVSeq &&& 15 = p.DTypeOrVSeq % 16 := by
      have := Nat.and_pow_two_sub_one_eq_mod p.DTypeOrVSeq 4
      norm_num at this; exact this
    rw [h3, h15]
    rcases hS : p.Slot <;> rcases hG : p.GroupCall <;>
      simp [flagsByte, hS, hG, Nat.testBit_to_div_mod] <;>
      refine ⟨by omega, by omega, by omega, by omega⟩
  · intro data q h
    unfold Decode at h
    split at h; · exact absurd h (by simp)
    split at h; · exact absurd h (by simp)
    simp only [Option.some.injEq] at h
    subst h
    refine ⟨?_, ?_, rfl, rfl⟩
    · show (data.getD 15 0 % 2 != 0) = (data.getD 15 0).testBit 0
      generalize data.getD 15 0 = b
      rcases Nat.mod_two_eq_zero_or_one b with hm | hm <;>
        simp [Nat.testBit_to_div_mod, hm]
    · show (data.getD 15 0 / 2 % 2 == 0) = !(data.getD 15 0).testBit 1
      generalize data.getD 15 0 = b
      rcases Nat.mod_two_eq_zero_or_one (b / 2) with hm | hm <;>
        simp [Nat.testBit_to_div_mod, hm]

/-- Witness for C3: encode side at the sample frame, decode side at a
concrete 53-byte input. -/
theorem flags_bit_layout_witness :
    (samplePkt.Encode.getD 15 0).testBit 0 = samplePkt.Slot ∧
    nines.Slot = ((List.replicate 53 9).getD 15 0).testBit 0 :=
  ⟨(flags_bit_layout.1 samplePkt).1,
   (flags_bit_layout.2 (List.replicate 53 9) nines (by decide)).1⟩

/-- C5: for every nonce (and password), `sendRPTK` builds one 76-byte packet:
the ASCII "RPTK", then the repeater ID as 8 zero-padded lowercase hex chars,
then the 64 lowercase hex chars of SHA-256(nonce ++ password).  The id bound
is the Go `uint32` typing of the repeater ID. -/
theorem sendRPTK_layout (id : Nat) (nonce password : List Nat)
    (hid : id < 4294967296) :
    (sendRPTK id nonce password).length = 76 ∧
    sendRPTK id nonce password =
      [82, 80, 84, 75] ++ hex8 id ++
        hexOfBytes (SHA256.sha256 (nonce ++ password)) ∧
    (hex8 id).length = 8 ∧
    (hexOfBytes (SHA256.sha256 (nonce ++ password))).length = 64 ∧
    (∀ c ∈ hexOfBytes (SHA256.sha256 (nonce ++ password)),
      (48 ≤ c ∧ c ≤ 57) ∨ (97 ≤ c ∧ c ≤ 102)) := by
  have htok : (hexOfBytes (SHA256.sha256 (nonce ++ password))).length = 64 := by
    rw [hexOfBytes_length, SHA256.sha256_length]
  refine ⟨?_, sendRPTK_eq id nonce password, hex8_length id, htok,
    hexOfBytes_mem _ (SHA256.sha256_mem_lt _)⟩
  rw [sendRPTK_eq id nonce password]
  simp [hex8_length, htok]

/-- Witness for C5 at the test fixture's id, an 8-byte nonce and the test
password "s3cret". -/
theorem sendRPTK_layout_witness :
    (sendRPTK 311860 [49, 50, 51, 52, 53, 54, 55, 56]
      [115, 51, 99, 114, 101, 116]).length = 76 ∧
    sendRPTK 311860 [49, 50, 51, 52, 53, 54, 55, 56]
        [115, 51, 99, 114, 101, 116] =
      [82, 80, 84, 75] ++ hex8 311860 ++
        hexOfBytes (SHA256.sha256 ([49, 50, 51, 52, 53, 54, 55, 56] ++
          [115, 51, 99, 114, 101, 116])) ∧
    (hex8 311860).length = 8 ∧
    (hexOfBytes (SHA256.sha256 ([49, 50, 51, 52, 53, 54, 55, 56] ++
      [115, 51, 99, 114, 101, 116]))).length = 64 ∧
    (∀ c ∈ hexOfBytes (SHA256.sha256 ([49, 50, 51, 52, 53, 54, 55, 56] ++
        [115, 51, 99, 114, 101, 116])),
      (48 ≤ c ∧ c ≤ 57) ∨ (97 ≤ c ∧ c ≤ 102)) :=
  sendRPTK_layout 311860 [49, 50, 51, 52, 53, 54, 55, 56]
    [115, 51, 99, 114, 101, 116] (by decide)

/-- C6 counterexample: at the test fixture's configuration, the packet
built by `sendRPTC` (callsign left-justified, `%-8s`) differs from the
claim's "8-char left-padded callsign" reading. -/
theorem sendRPTC_not_left_padded :
    sendRPTC [78, 48, 67, 65, 76, 76] 311860 449000000 444000000 50 1
        [51, 53, 46, 48, 48, 48, 48, 48, 48]
        [45, 57, 55, 46, 48, 48, 48, 48, 48, 48] 30
        [79, 107, 108, 97, 104, 111, 109, 97]
        [84, 101, 115, 116, 32, 82, 101, 112, 101, 97, 116, 101, 114]
        [104, 116, 116, 112, 115, 58, 47, 47, 101, 120, 97, 109, 112, 108,
          101, 46, 99, 111, 109] ≠
      sendRPTCLeftPadded [78, 48, 67, 65, 76, 76] 311860 449000000 444000000
        50 1 [51, 53, 46, 48, 48, 48, 48, 48, 48]
        [45, 57, 55, 46, 48, 48, 48, 48, 48, 48] 30
        [79, 107, 108, 97, 104, 111, 109, 97]
        [84, 101, 115, 116, 32, 82, 101, 112, 101, 97, 116, 101, 114]
        [104, 116, 116, 112, 115, 58, 47, 47, 101, 120, 97, 109, 112, 108,
          101, 46, 99, 111, 109] := by
  decide

/-- C6 (amended: the callsign field is left-justified, space-padded on the
right): for every configuration whose fields fit their stated widths,
`sendRPTC` emits one 306-byte packet equal to "RPTC" followed by the
8-char callsign field, 8-hex ID, 9-digit RX Hz, 9-digit TX Hz, 2-digit TX
power, 2-digit colour code, 8-char latitude, 9-char longitude, 3-digit
height, 20-char location, 20-char description, 124-char URL and two
40-space blocks. -/
theorem sendRPTC_layout
    (callsign : List Nat) (id rxfreq txfreq txpower colorcode : Nat)
    (latStr lonStr : List Nat) (height : Nat)
    (location description url : List Nat)
    (hcs : callsign.length ≤ 8) (hid : id < 4294967296)
    (hrx : rxfreq < 10 ^ 9) (htx : txfreq < 10 ^ 9)
    (hpw : txpower < 10 ^ 2) (hcc : colorcode < 10 ^ 2)
    (hlat : 8 ≤ latStr.length) (hlon : 9 ≤ lonStr.length)
    (hht : height < 10 ^ 3) (hloc : location.length ≤ 20)
    (hdesc : description.length ≤ 20) (hurl : url.length ≤ 124) :
    (sendRPTC callsign id rxfreq txfreq txpower colorcode latStr lonStr
        height location description url).length = 306 ∧
    sendRPTC callsign id rxfreq txfreq txpower colorcode latStr lonStr
        height location description url =
      [82, 80, 84, 67] ++ leftJustify 8 callsign ++ hex8 id ++
        zeroPad 9 rxfreq ++ zeroPad 9 txfreq ++ zeroPad 2 txpower ++
        zeroPad 2 colorcode ++ latStr.take 8 ++ lonStr.take 9 ++
        zeroPad 3 height ++ leftJustify 20 location ++
        leftJustify 20 description ++ leftJustify 124 url ++
        List.replicate 40 32 ++ List.replicate 40 32 ∧
    (leftJustify 8 callsign).length = 8 ∧
    (hex8 id).length = 8 ∧
    (zeroPad 9 rxfreq).length = 9 ∧
    (zeroPad 9 txfreq).length = 9 ∧
    (zeroPad 2 txpower).length = 2 ∧
    (zeroPad 2 colorcode).length = 2 ∧
    (latStr.take 8).length = 8 ∧
    (lonStr.take 9).length = 9 ∧
    (zeroPad 3 height).length = 3 ∧
    (leftJustify 20 location).length = 20 ∧
    (leftJustify 20 description).length = 20 ∧
    (leftJustify 124 url).length = 124 := by
  have l1 : (leftJustify 8 callsign).length = 8 := leftJustify_length hcs
  have l2 : (hex8 id).length = 8 := hex8_length id
  have l3 : (zeroPad 9 rxfreq).length = 9 := zeroPad_length (by norm_num) hrx
  have l4 : (zeroPad 9 txfreq).length = 9 := zeroPad_length (by norm_num) htx
  have l5 : (zeroPad 2 txpower).length = 2 := zeroPad_length (by norm_num) hpw
  have l6 : (zeroPad 2 colorcode).length = 2 := zeroPad_length (by norm_num) hcc
  have l7 : (latStr.take 8).length = 8 := by simp; omega
  have l8 : (lonStr.take 9).length = 9 := by simp; omega
  have l9 : (zeroPad 3 height).length = 3 := zeroPad_length (by norm_num) hht
  have l10 : (leftJustify 20 location).length = 20 := leftJustify_length hloc
  have l11 : (leftJustify 20 description).length = 20 :=
    leftJustify_length hdesc
  have l12 : (leftJustify 124 url).length = 124 := leftJustify_length hurl
  refine ⟨?_, rfl, l1, l2, l3, l4, l5, l6, l7, l8, l9, l10, l11, l12⟩
  simp only [sendRPTC, List.length_append, l1, l2, l3, l4, l5, l6, l7, l8,
    l9, l10, l11, l12, List.length_replicate, List.length_cons,
    List.length_nil]

/-- Witness for the amended C6 at the test fixture's configuration. -/
theorem sendRPTC_layout_witness :
    (sendRPTC [78, 48, 67, 65, 76, 76] 311860 449000000 444000000 50 1
        [51, 53, 46, 48, 48, 48, 48, 48, 48]
        [45, 57, 55, 46, 48, 48, 48, 48, 48, 48] 30
        [79, 107, 108, 97, 104, 111, 109, 97]
        [84, 101, 115, 116, 32, 82, 101, 112, 101, 97, 116, 101, 114]
        [104, 116, 116, 112, 115, 58, 47, 47, 101, 120, 97, 109, 112, 108,
          101, 46, 99, 111, 109]).length = 306 :=
  (sendRPTC_layout [78, 48, 67, 65, 76, 76] 311860 449000000 444000000 50 1
    [51, 53, 46, 48, 48, 48, 48, 48, 48]
    [45, 57, 55, 46, 48, 48, 48, 48, 48, 48] 30
    [79, 107, 108, 97, 104, 111, 109, 97]
    [84, 101, 115, 116, 32, 82, 101, 112, 101, 97, 116, 101, 114]
    [104, 116, 116, 112, 115, 58, 47, 47, 101, 120, 97, 109, 112, 108, 101,
      46, 99, 111, 109]
    (by decide) (by decide) (by decide) (by decide) (by decide) (by decide)
    (by decide) (by decide) (by decide) (by decide) (by decide)
    (by decide)).1

/-- C7 counterexample: with authentication enabled and an empty key, every
earlier check passing, `Validate` returns `ErrInvalidIPSCAuthKey` even
though the empty key matches `^[0-9a-fA-F]{0,40}$` — so the auth-key error
is not returned "exactly when" the key fails the pattern. -/
theorem validate_empty_key_counterexample :
    Cfg.Config.Validate (Cfg.baseCfg true "") true =
        some Cfg.ConfigError.ErrInvalidIPSCAuthKey ∧
    Cfg.matchesAuthKeyPattern (Cfg.baseCfg true "").IPSC.Auth.Key = true ∧
    (Cfg.baseCfg true "").IPSC.Auth.Enabled = true := by
  decide

/-- C7 (amended: with auth enabled, the auth-key error is returned exactly
when the key is empty or fails the hex pattern; every key of 1-40 hex chars
is accepted): for every configuration passing all checks preceding the
auth-key checks, including the interface lookup. -/
theorem validate_authkey_enabled (c : Cfg.Config) (linkOk : Bool)
    (hlog : c.LogLevel = "debug" ∨ c.LogLevel = "info" ∨
      c.LogLevel = "warn" ∨ c.LogLevel = "error")
    (hcs : c.HBRP.Callsign ≠ "")
    (hcc : c.HBRP.ColorCode ≤ 15)
    (hlon : -180 ≤ c.HBRP.Longitude ∧ c.HBRP.Longitude ≤ 180)
    (hlat : -90 ≤ c.HBRP.Latitude ∧ c.HBRP.Latitude ≤ 90)
    (hms : c.HBRP.MasterServer ≠ "")
    (hpw : c.HBRP.Password ≠ "")
    (hif : c.IPSC.Interface ≠ "")
    (hlink : linkOk = true)
    (hip : c.IPSC.IP ≠ "")
    (hmask : 1 ≤ c.IPSC.SubnetMask ∧ c.IPSC.SubnetMask ≤ 32)
    (hen : c.IPSC.Auth.Enabled = true) :
    (Cfg.Config.Validate c linkOk =
        some Cfg.ConfigError.ErrInvalidIPSCAuthKey ↔
      (c.IPSC.Auth.Key = "" ∨
        Cfg.matchesAuthKeyPattern c.IPSC.Auth.Key = false)) := by
  unfold Cfg.Config.Validate
  rw [if_neg (not_not_intro hlog), if_neg hcs, if_neg (by omega),
    if_neg (by push_neg; exact ⟨hlon.1, hlon.2⟩),
    if_neg (by push_neg; exact ⟨hlat.1, hlat.2⟩),
    if_neg hms, if_neg hpw, if_neg hif, if_neg (by simp [hlink]),
    if_neg hip, if_neg (by push_neg; exact ⟨hmask.1, hmask.2⟩)]
  by_cases hk : c.IPSC.Auth.Key = ""
  · rw [if_pos ⟨hen, hk⟩]
    simp [hk]
  · rw [if_neg (by simp [hk])]
    by_cases hp : Cfg.matchesAuthKeyPattern c.IPSC.Auth.Key = false
    · rw [if_pos hp]; simp [hp]
    · rw [if_neg hp]; simp [hk, hp]

/-- Witness for the amended C7 at a non-hex key with auth enabled. -/
theorem validate_authkey_enabled_witness :
    Cfg.Config.Validate (Cfg.baseCfg true "ZZZZ") true =
        some Cfg.ConfigError.ErrInvalidIPSCAuthKey ↔
      ((Cfg.baseCfg true "ZZZZ").IPSC.Auth.Key = "" ∨
        Cfg.matchesAuthKeyPattern
          (Cfg.baseCfg true "ZZZZ").IPSC.Auth.Key = false) :=
  validate_authkey_enabled (Cfg.baseCfg true "ZZZZ") true
    (by decide) (by decide) (by decide) (by decide) (by decide) (by decide)
    (by decide) (by decide) (by decide) (by decide) (by decide) (by decide)

/-- C10: the auth-key hex pattern is applied even when IPSC authentication
is disabled — a disabled config with a key failing `^[0-9a-fA-F]{0,40}$`
still fails validation with `ErrInvalidIPSCAuthKey`. -/
theorem validate_authkey_disabled (c : Cfg.Config) (linkOk : Bool)
    (hlog : c.LogLevel = "debug" ∨ c.LogLevel = "info" ∨
      c.LogLevel = "warn" ∨ c.LogLevel = "error")
    (hcs : c.HBRP.Callsign ≠ "")
    (hcc : c.HBRP.ColorCode ≤ 15)
    (hlon : -180 ≤ c.HBRP.Longitude ∧ c.HBRP.Longitude ≤ 180)
    (hlat : -90 ≤ c.HBRP.Latitude ∧ c.HBRP.Latitude ≤ 90)
    (hms : c.HBRP.MasterServer ≠ "")
    (hpw : c.HBRP.Password ≠ "")
    (hif : c.IPSC.Interface ≠ "")
    (hlink : linkOk = true)
    (hip : c.IPSC.IP ≠ "")
    (hmask : 1 ≤ c.IPSC.SubnetMask ∧ c.IPSC.SubnetMask ≤ 32)
    (hen : c.IPSC.Auth.Enabled = false)
    (hbad : Cfg.matchesAuthKeyPattern c.IPSC.Auth.Key = false) :
    Cfg.Config.Validate c linkOk =
      some Cfg.ConfigError.ErrInvalidIPSCAuthKey := by
  unfold Cfg.Config.Validate
  rw [if_neg (not_not_intro hlog), if_neg hcs, if_neg (by omega),
    if_neg (by push_neg; exact ⟨hlon.1, hlon.2⟩),
    if_neg (by push_neg; exact ⟨hlat.1, hlat.2⟩),
    if_neg hms, if_neg hpw, if_neg hif, if_neg (by simp [hlink]),
    if_neg hip, if_neg (by push_neg; exact ⟨hmask.1, hmask.2⟩),
    if_neg (by simp [hen]), if_pos hbad]

/-- Witness for C10 at a non-hex key with auth disabled. -/
theorem validate_authkey_disabled_witness :
    Cfg.Config.Validate (Cfg.baseCfg false "ZZZZ") true =
      some Cfg.ConfigError.ErrInvalidIPSCAuthKey :=
  validate_authkey_disabled (Cfg.baseCfg false "ZZZZ") true
    (by decide) (by decide) (by decide) (by decide) (by decide) (by decide)
    (by decide) (by decide) (by decide) (by decide) (by decide) (by decide)
    (by decide)

/-- C2: a DMRD voice LC header (frameType 1, dTypeOrVSeq 1) translates to
exactly three IPSC voice-head packets (burst type 0x01); in the reverse
direction a voice-head packet whose call-control is unknown yields exactly
one DMRD frame, and every consecutive voice-head sharing that call-control
yields none. -/
theorem translator_triple_header_and_dedup :
    (∀ (tr : Ipsc.IPSCTranslator) (p : Hbrp.Packet),
      p.FrameType = 1 → p.DTypeOrVSeq = 1 →
      (Ipsc.TranslateToIPSC tr p).2.length = 3 ∧
      ∀ pkt ∈ (Ipsc.TranslateToIPSC tr p).2, pkt.getD 30 0 = 1) ∧
    (∀ (tr : Ipsc.IPSCTranslator) (ty : Nat) (data : List Nat),
      (ty = 128 ∨ ty = 129 ∨ ty = 131 ∨ ty = 132) →
      54 ≤ data.length →
      data.getD 30 0 = 1 →
      data.getD 17 0 / 64 % 2 = 0 →
      Ipsc.lookupReverse tr (Ipsc.ccOf data) = none →
      (Ipsc.TranslateToHBRP tr ty data).2.length = 1 ∧
      ∀ (ty2 : Nat) (data2 : List Nat),
        (ty2 = 128 ∨ ty2 = 129 ∨ ty2 = 131 ∨ ty2 = 132) →
        54 ≤ data2.length →
        data2.getD 30 0 = 1 →
        Ipsc.ccOf data2 = Ipsc.ccOf data →
        (Ipsc.TranslateToHBRP (Ipsc.TranslateToHBRP tr ty data).1 ty2
          data2).2.length = 0) := by
  refine ⟨fun tr p hft hdt => Ipsc.triple_header tr p hft hdt, ?_⟩
  intro tr ty data hty hlen hburst hend hnone
  obtain ⟨h1, h2⟩ :=
    Ipsc.translate_voicehead_new tr ty data hty hlen hburst hend hnone
  refine ⟨h1, ?_⟩
  intro ty2 data2 hty2 hlen2 hburst2 hcc
  exact Ipsc.translate_voicehead_dup _ ty2 data2 hty2 hlen2 hburst2
    (by rw [hcc]; exact h2)

/-- Witness for C2: the sample header frame produces 3 packets; a concrete
54-byte voice-head produces one DMRD frame and its duplicate none. -/
theorem translator_triple_header_and_dedup_witness :
    (Ipsc.TranslateToIPSC Ipsc.testTranslator
      { samplePkt with DTypeOrVSeq := 1 }).2.length = 3 ∧
    (Ipsc.TranslateToHBRP Ipsc.testTranslator 128
      Ipsc.testVoiceHead).2.length = 1 ∧
    (Ipsc.TranslateToHBRP
      (Ipsc.TranslateToHBRP Ipsc.testTranslator 128 Ipsc.testVoiceHead).1
      128 Ipsc.testVoiceHead).2.length = 0 := by
  have hfwd := (translator_triple_header_and_dedup.1 Ipsc.testTranslator
    { samplePkt with DTypeOrVSeq := 1 } (by decide) (by decide)).1
  have hrev := translator_triple_header_and_dedup.2 Ipsc.testTranslator 128
    Ipsc.testVoiceHead (by decide) (by decide) (by decide) (by decide)
    (by decide)
  exact ⟨hfwd, hrev.1,
    hrev.2 128 Ipsc.testVoiceHead (by decide) (by decide) (by decide) rfl⟩

end Claims
